import Mathlib

/-!
Verification development for the interfaceAgent repository
(Pipeline Orchestration & Event Bus engine plus React frontend).

Pure frontend logic is embedded directly from the JavaScript sources
(`frontend/src/services/api.js`, `frontend/src/components/Pipelines.js`,
`frontend/src/components/AuditLogs.js`, `frontend/src/components/Agents.js`).
The Python backend core (pipeline orchestrator, agent registry, event bus)
is not part of the source tree available here, only its API documentation
and frontend callers are; those components are modelled from the spec,
as marked in the doc comments.
-/

namespace InterfaceAgent

/-- Opaque configuration / payload map (spec §3: "opaque map"). -/
abbrev Payload := List (String × String)

/-- Pipeline status (spec §3: {draft, active, paused, archived}). -/
inductive PipelineStatus where
  | draft | active | paused | archived
deriving DecidableEq, Repr

/-- A pipeline step (spec §3: step id, bound agent id, integer order,
per-step configuration override; criticality flag per §4.3 rule 4). -/
structure Step where
  id : Nat
  agent_id : Nat
  order : Int
  critical : Bool
  config : Payload
deriving DecidableEq, Repr

/-- Pipeline definition (spec §3). -/
structure Pipeline where
  id : Nat
  status : PipelineStatus
  steps : List Step
deriving DecidableEq, Repr

/-- Execution status (spec §3 / §4.3 state machine). -/
inductive ExecStatus where
  | pending | running | succeeded | failed | partially_failed
deriving DecidableEq, Repr

/-- Outcome of one agent step invocation (spec §4.1). -/
inductive StepOutcome where
  | success (out : Payload)
  | failure (err : String)
deriving DecidableEq, Repr

/-- Per-step result recorded in an execution (spec §3 Step Results). -/
structure StepResult where
  step_id : Nat
  order : Int
  ok : Bool
deriving DecidableEq, Repr

/-- Orchestrator errors (spec §4.3 execution algorithm, steps 1-3). -/
inductive OrchError where
  | PipelineNotFound | PipelineNotActive | StepOrderConflict | AgentUnavailable
deriving DecidableEq, Repr

/-- Ascending comparison on step `order`, the comparator used by the
steps display in `Pipelines.js` lines 164-166
(`.sort((a, b) => a.order - b.order)`) and by the orchestrator's
"sort steps by `order` ascending" (spec §4.3 step 2). -/
def stepLE (a b : Step) : Prop := a.order ≤ b.order

instance : DecidableRel stepLE := fun a b => by
  unfold stepLE; infer_instance

/-- Sort a pipeline's steps ascending by `order`; a stable ascending
sort, as performed by `Pipelines.js` lines 164-166 for display and by
spec §4.3 step 2 before execution. -/
def sortSteps (steps : List Step) : List Step :=
  steps.insertionSort stepLE

/-- Modelled from the spec: §4.3 steps 3-4 of the execution algorithm
(the backend orchestrator `api/pipelines.py` / services is not in the
available source tree).  Runs the already-sorted steps sequentially
against the threaded payload.  `run` is the (deterministic) behaviour of
the resolved agent for a step on a payload.  Default fail-fast policy:
a failing critical step stops the run with terminal status `failed`;
a failing non-critical step is recorded and the run proceeds, giving
`partially_failed` unless a later critical failure gives `failed`. -/
def runSteps (run : Step → Payload → StepOutcome) :
    List Step → Payload → (List StepResult × ExecStatus × Payload)
  | [], payload => ([], ExecStatus.succeeded, payload)
  | s :: rest, payload =>
    match run s payload with
    | StepOutcome.success out =>
      let r := runSteps run rest out
      (⟨s.id, s.order, true⟩ :: r.1, r.2)
    | StepOutcome.failure _ =>
      if s.critical then
        ([⟨s.id, s.order, false⟩], ExecStatus.failed, payload)
      else
        let r := runSteps run rest payload
        (⟨s.id, s.order, false⟩ :: r.1,
         (if r.2.1 = ExecStatus.failed then ExecStatus.failed
          else ExecStatus.partially_failed),
         r.2.2)

/-- Modelled from the spec: §4.3 execution algorithm steps 1-2 plus §3's
"a pipeline may only be executed while status = active" (the backend
orchestrator is not in the available source tree).  Loads the pipeline,
checks its status, sorts steps by `order` and rejects duplicate orders,
then runs the steps. -/
def executePipeline (run : Step → Payload → StepOutcome)
    (pipelines : List Pipeline) (pid : Nat) (input : Payload) :
    Except OrchError (List StepResult × ExecStatus × Payload) :=
  match pipelines.find? (fun p => p.id == pid) with
  | none => Except.error OrchError.PipelineNotFound
  | some p =>
    if p.status ≠ PipelineStatus.active then
      Except.error OrchError.PipelineNotActive
    else if (p.steps.map Step.order).Nodup then
      Except.ok (runSteps run (sortSteps p.steps) input)
    else
      Except.error OrchError.StepOrderConflict

/-- `Pipelines.js` line 120: the Execute button is rendered only when
`pipeline.status === 'active'`. -/
def executeButtonShown (status : String) : Bool :=
  status == "active"

/-- Modelled from the spec: §4.4 Event Bus (HA) consumer-side state
(the backend `services/event_bus.py` is not in the available source
tree).  `dedupStore` is the shared fast deduplication store of event
ids, `dedupHealthy` its availability, and `handled` the log of event
ids for which the consumer's handler was invoked (most recent first). -/
structure BusState where
  dedupStore : List String
  dedupHealthy : Bool
  handled : List String
deriving DecidableEq, Repr

/-- Modelled from the spec: §4.4 `consume(handler)` for one delivered
event.  Healthy store: an id already present is dropped without
invoking the handler; an absent id is recorded and the handler runs.
Unavailable store: the bus degrades to at-least-once and the handler
runs without dedup. -/
def consume (st : BusState) (eventId : String) : BusState :=
  if st.dedupHealthy then
    if eventId ∈ st.dedupStore then
      st
    else
      { st with dedupStore := eventId :: st.dedupStore,
                handled := eventId :: st.handled }
  else
    { st with handled := eventId :: st.handled }

/-- Registry errors (spec §4.1). -/
inductive RegError where
  | DuplicateType | UnknownType
deriving DecidableEq, Repr

/-- A constructed agent instance bound to one configuration
(spec §3 Agent Instance); the constructor is abstracted as a `Nat`
identifier. -/
structure AgentInstance where
  ctor : Nat
  config : Payload
deriving DecidableEq, Repr

/-- Modelled from the spec: §4.1 `register(type_name, constructor)`
(the backend `agents/registry.py` is not in the available source tree).
Fails with `DuplicateType` when the type name is already bound to a
different constructor; the registry value is returned unchanged only
on success paths, so an error leaves the caller's registry untouched. -/
def register (r : List (String × Nat)) (typeName : String) (ctor : Nat) :
    Except RegError (List (String × Nat)) :=
  match r.lookup typeName with
  | some c =>
    if c = ctor then Except.ok r else Except.error RegError.DuplicateType
  | none => Except.ok ((typeName, ctor) :: r)

/-- Modelled from the spec: §4.1 `create_agent(type_name, config)`
(the backend `agents/registry.py` is not in the available source tree).
Fails with `UnknownType` if unregistered, else constructs a fresh
instance bound to `config`. -/
def create_agent (r : List (String × Nat)) (typeName : String)
    (config : Payload) : Except RegError AgentInstance :=
  match r.lookup typeName with
  | some c => Except.ok ⟨c, config⟩
  | none => Except.error RegError.UnknownType

/-- Agent definition record, as listed by the frontend
(`Agents.js`: id, name, agent_type, status, version). -/
structure AgentDef where
  id : Nat
  agent_type : String
  status : String
deriving DecidableEq, Repr

/-- Agent-deletion errors (spec §3 Agent Definition lifecycle). -/
inductive DeleteError where
  | AgentNotFound | AgentReferenced
deriving DecidableEq, Repr

/-- Whether some step of some pipeline references the agent id
(spec §3: "referenced by a pipeline step"). -/
def isReferenced (pipelines : List Pipeline) (agentId : Nat) : Bool :=
  pipelines.any (fun p => p.steps.any (fun s => s.agent_id == agentId))

/-- Modelled from the spec: §3 Agent Definition lifecycle, "never
silently deleted while referenced by a pipeline step (referential
check required)" (the backend delete handler behind
`agentsAPI.delete` / `Agents.handleDelete` is not in the available
source tree).  Deletion of a referenced agent is refused. -/
def deleteAgent (agents : List AgentDef) (pipelines : List Pipeline)
    (aid : Nat) : Except DeleteError (List AgentDef) :=
  if agents.any (fun a => a.id == aid) then
    if isReferenced pipelines aid then
      Except.error DeleteError.AgentReferenced
    else
      Except.ok (agents.filter (fun a => a.id != aid))
  else
    Except.error DeleteError.AgentNotFound

/-- Browser token storage used by `api.js`
(`localStorage` keys `access_token` and `refresh_token`). -/
structure TokenStorage where
  access_token : Option String
  refresh_token : Option String
deriving DecidableEq, Repr

/-- Where the interceptor navigates the browser (`window.location.href`). -/
inductive NavTarget where
  | stay | login
deriving DecidableEq, Repr

/-- The request configuration retried by the interceptor
(`error.config` with its `Authorization` header). -/
structure RequestConfig where
  url : String
  authHeader : Option String
deriving DecidableEq, Repr

/-- A failed backend response as seen by the axios response interceptor:
`error.response?.status` and `error.config`. -/
structure HttpError where
  status : Option Nat
  config : RequestConfig
deriving DecidableEq, Repr

/-- Result of the `POST /api/auth/refresh` call made by the
interceptor: either new tokens or a failure. -/
inductive RefreshResult where
  | ok (access refresh : String)
  | failed
deriving DecidableEq, Repr

/-- What the interceptor returns to the caller: the propagated error,
or the response of the one retried request. -/
inductive InterceptorResult where
  | reject (e : HttpError)
  | retried (cfg : RequestConfig)
deriving DecidableEq, Repr

/-- Full observable outcome of one run of the response interceptor. -/
structure InterceptorOutcome where
  result : InterceptorResult
  storage : TokenStorage
  nav : NavTarget
  refreshCalls : Nat
deriving DecidableEq, Repr

/-- The axios response-error interceptor of
`frontend/src/services/api.js` lines 30-59.  On a 401 with a stored
refresh token it performs one refresh call; on refresh success it
stores both new tokens and retries the original request once with the
new access token (via bare `axios`, outside the interceptor); on
refresh failure it removes both tokens and navigates to `/login`,
then rejects with the original error; with no refresh token (or a
non-401) it rejects with the original error unchanged. -/
def responseErrorInterceptor (st : TokenStorage)
    (refreshApi : String → RefreshResult) (e : HttpError) :
    InterceptorOutcome :=
  if e.status = some 401 then
    match st.refresh_token with
    | some rt =>
      match refreshApi rt with
      | RefreshResult.ok newAccess newRefresh =>
        { result := InterceptorResult.retried
            { e.config with authHeader := some ("Bearer " ++ newAccess) },
          storage := ⟨some newAccess, some newRefresh⟩,
          nav := NavTarget.stay,
          refreshCalls := 1 }
      | RefreshResult.failed =>
        { result := InterceptorResult.reject e,
          storage := ⟨none, none⟩,
          nav := NavTarget.login,
          refreshCalls := 1 }
    | none =>
      { result := InterceptorResult.reject e,
        storage := st,
        nav := NavTarget.stay,
        refreshCalls := 0 }
  else
    { result := InterceptorResult.reject e,
      storage := st,
      nav := NavTarget.stay,
      refreshCalls := 0 }

/-- The filter state of the audit-log viewer
(`AuditLogs.js` lines 11-15). -/
structure Filters where
  action : String
  resource_type : String
  status : String
deriving DecidableEq, Repr

/-- The cleared filter state set by `handleClearFilters`
(`AuditLogs.js` line 64). -/
def emptyFilters : Filters := ⟨"", "", ""⟩

/-- The query parameters built by `loadLogs`
(`AuditLogs.js` lines 39-42): each filter field is included only when
non-empty. -/
def buildParams (f : Filters) : List (String × String) :=
  (if f.action ≠ "" then [("action", f.action)] else []) ++
  (if f.resource_type ≠ "" then [("resource_type", f.resource_type)] else []) ++
  (if f.status ≠ "" then [("status", f.status)] else [])

/-- Outcome of the Clear Filters action: the component's next filter
state and the parameters of the reload request it schedules. -/
structure ClearOutcome where
  newFilters : Filters
  requestParams : List (String × String)
deriving DecidableEq, Repr

/-- `AuditLogs.js` lines 63-67, `handleClearFilters`: it calls
`setFilters({action:'', resource_type:'', status:''})` and schedules
`setTimeout(() => loadLogs(), 100)`.  The scheduled `loadLogs` is the
closure from the render in which `handleClearFilters` was created, so
it reads the `filters` binding of that render - the pre-clear value
`current` - when building the request parameters. -/
def handleClearFilters (current : Filters) : ClearOutcome :=
  { newFilters := emptyFilters,
    requestParams := buildParams current }

/-- The documented response of
`POST /api/pipelines/{pipeline_id}/execute`
(`docs/deployment/README.md` lines 498-520). -/
structure ExecuteResponse where
  execution_id : Nat
  status : String
  output_data : Option Payload
deriving DecidableEq, Repr

/-- The example response documented for the execute endpoint in
`docs/deployment/README.md` lines 509-518: `"status": "pending"`,
`"output_data": null`. -/
def documentedExecuteResponse : ExecuteResponse :=
  { execution_id := 123, status := "pending", output_data := none }

/-- The spec's §4.3 observability property as claimed: after the
Orchestrator accepts an execution request, no externally visible
state - including the response of the execute operation - reports
status `pending`. -/
def execNeverObservedPending : Prop :=
  documentedExecuteResponse.status ≠ "pending"

instance : Decidable execNeverObservedPending := by
  unfold execNeverObservedPending; infer_instance

/-! ## Lemmas about the orchestrator -/

instance : IsTotal Step stepLE :=
  ⟨fun a b => le_total a.order b.order⟩

instance : IsTrans Step stepLE :=
  ⟨fun _ _ _ hab hbc => le_trans hab hbc⟩

/-- The sorted step list is ascending in `order`. -/
lemma sortSteps_sorted (steps : List Step) :
    (sortSteps steps).Pairwise stepLE :=
  List.sorted_insertionSort stepLE steps

/-- Sorting permutes the steps. -/
lemma sortSteps_perm (steps : List Step) :
    List.Perm (sortSteps steps) steps :=
  List.perm_insertionSort stepLE steps

/-- When a run of `runSteps` ends `succeeded`, every step produced a
result, in list order: the recorded result orders are exactly the step
orders. -/
lemma runSteps_succeeded_map_order (run : Step → Payload → StepOutcome) :
    ∀ (l : List Step) (payload : Payload),
      (runSteps run l payload).2.1 = ExecStatus.succeeded →
      (runSteps run l payload).1.map StepResult.order = l.map Step.order := by
  intro l
  induction l with
  | nil => intro payload _; simp [runSteps]
  | cons s l ih =>
    intro payload h
    cases hr : run s payload with
    | success out =>
      have h' : (runSteps run l out).2.1 = ExecStatus.succeeded := by
        simpa [runSteps, hr] using h
      simp [runSteps, hr, ih out h']
    | failure err =>
      by_cases hc : s.critical
      · simp [runSteps, hr, hc] at h
      · simp only [runSteps, hr, hc, if_false, Bool.false_eq_true] at h
        split at h <;> simp_all

/-- A failing critical step stops the run: results cover exactly the
preceding (always-succeeding) steps plus the failed step, and the
status is `failed`. -/
lemma runSteps_failfast (run : Step → Payload → StepOutcome) (s : Step)
    (hcrit : s.critical = true)
    (hfail : ∀ pay, ∃ err, run s pay = StepOutcome.failure err) :
    ∀ (pre post : List Step) (payload : Payload),
      (∀ t ∈ pre, ∀ pay, ∃ out, run t pay = StepOutcome.success out) →
      (runSteps run (pre ++ s :: post) payload).2.1 = ExecStatus.failed ∧
      (runSteps run (pre ++ s :: post) payload).1.length = pre.length + 1 := by
  intro pre
  induction pre with
  | nil =>
    intro post payload _
    obtain ⟨err, herr⟩ := hfail payload
    simp [runSteps, herr, hcrit]
  | cons t pre ih =>
    intro post payload hpre
    obtain ⟨out, hout⟩ := hpre t (List.mem_cons_self t pre) payload
    have := ih post out (fun u hu pay => hpre u (List.mem_cons_of_mem t hu) pay)
    simp [runSteps, hout, this.1, this.2]

/-- Unfolding `executePipeline` on the success path: the pipeline was
found, was active, had no duplicate orders, and the result is
`runSteps` on the sorted steps. -/
lemma executePipeline_ok (run : Step → Payload → StepOutcome)
    (pipelines : List Pipeline) (pid : Nat) (input : Payload)
    (p : Pipeline)
    (hfind : pipelines.find? (fun q => q.id == pid) = some p)
    (hactive : p.status = PipelineStatus.active)
    (hnodup : (p.steps.map Step.order).Nodup) :
    executePipeline run pipelines pid input =
      Except.ok (runSteps run (sortSteps p.steps) input) := by
  simp [executePipeline, hfind, hactive, hnodup]

/-! ## Test fixtures -/

/-- Fixture step with order 2. -/
def stepA : Step := ⟨1, 10, 2, true, []⟩

/-- Fixture step with order 1. -/
def stepB : Step := ⟨2, 11, 1, true, []⟩

/-- Fixture pipeline whose steps are stored out of order. -/
def fixturePipeline : Pipeline := ⟨1, PipelineStatus.active, [stepA, stepB]⟩

/-- Fixture pipeline with a duplicate step order. -/
def dupPipeline : Pipeline :=
  ⟨2, PipelineStatus.active, [⟨1, 10, 1, true, []⟩, ⟨2, 11, 1, true, []⟩]⟩

/-- Agent behaviour that succeeds on every step, echoing the payload. -/
def runOk : Step → Payload → StepOutcome :=
  fun _ p => StepOutcome.success p

/-- Fixture pipeline whose first step (id 3) is critical and fails. -/
def failPipeline : Pipeline :=
  ⟨3, PipelineStatus.active, [⟨3, 10, 1, true, []⟩, ⟨4, 11, 2, true, []⟩]⟩

/-- Agent behaviour that fails on step id 3 and succeeds elsewhere. -/
def runFailFirst : Step → Payload → StepOutcome :=
  fun s p => if s.id = 3 then StepOutcome.failure "boom"
             else StepOutcome.success p

/-! ## Claim theorems -/

/-- C1: a successful execution of a pipeline with N steps produces
exactly N step results, ordered by ascending step `order`; steps are
sorted by `order` ascending before execution and display; execution
fails with `StepOrderConflict` when two steps share an `order`. -/
theorem execution_produces_sorted_results :
    (∀ (run : Step → Payload → StepOutcome) (pipelines : List Pipeline)
        (pid : Nat) (input : Payload) (p : Pipeline)
        (results : List StepResult) (fin : Payload),
      pipelines.find? (fun q => q.id == pid) = some p →
      executePipeline run pipelines pid input =
        Except.ok (results, ExecStatus.succeeded, fin) →
      results.length = p.steps.length ∧
      results.Pairwise (fun a b => a.order ≤ b.order))
  ∧ (∀ (run : Step → Payload → StepOutcome) (pipelines : List Pipeline)
        (pid : Nat) (input : Payload) (p : Pipeline),
      pipelines.find? (fun q => q.id == pid) = some p →
      p.status = PipelineStatus.active →
      ¬ (p.steps.map Step.order).Nodup →
      executePipeline run pipelines pid input =
        Except.error OrchError.StepOrderConflict)
  ∧ (∀ steps : List Step,
      (sortSteps steps).Pairwise stepLE ∧
      List.Perm (sortSteps steps) steps) := by
  refine ⟨?_, ?_, fun steps => ⟨sortSteps_sorted steps, sortSteps_perm steps⟩⟩
  · intro run pipelines pid input p results fin hfind hok
    simp only [executePipeline, hfind] at hok
    by_cases hactive : p.status = PipelineStatus.active
    · simp only [hactive, ne_eq, not_true_eq_false, if_false, ite_false] at hok
      by_cases hnodup : (p.steps.map Step.order).Nodup
      · simp only [hnodup, if_true, ite_true, Except.ok.injEq] at hok
        have hr : runSteps run (sortSteps p.steps) input =
            (results, ExecStatus.succeeded, fin) := hok
        have hstat : (runSteps run (sortSteps p.steps) input).2.1 =
            ExecStatus.succeeded := by rw [hr]
        have hmap := runSteps_succeeded_map_order run (sortSteps p.steps)
          input hstat
        rw [hr] at hmap
        constructor
        · have h1 : results.length = (sortSteps p.steps).length := by
            have := congrArg List.length hmap
            simpa using this
          rw [h1]
          exact (sortSteps_perm p.steps).length_eq
        · have hs : ((sortSteps p.steps).map Step.order).Pairwise
              (fun a b => a ≤ b) := by
            rw [List.pairwise_map]
            exact sortSteps_sorted p.steps
          have h2 : (results.map StepResult.order).Pairwise
              (fun a b => a ≤ b) := by rw [hmap]; exact hs
          rw [List.pairwise_map] at h2
          exact h2
      · simp [hnodup] at hok
    · simp [hactive] at hok
  · intro run pipelines pid input p hfind hactive hnodup
    simp [executePipeline, hfind, hactive, hnodup]

/-- C1 witness: the two-step fixture pipeline, stored out of order,
executes to two results in ascending order; the duplicate-order
fixture is rejected; the fixture step list sorts ascending. -/
theorem execution_produces_sorted_results_witness :
    (([⟨2, 1, true⟩, ⟨1, 2, true⟩] : List StepResult).length =
        fixturePipeline.steps.length ∧
     ([⟨2, 1, true⟩, ⟨1, 2, true⟩] : List StepResult).Pairwise
        (fun a b => a.order ≤ b.order)) ∧
    executePipeline runOk [dupPipeline] 2 [] =
      Except.error OrchError.StepOrderConflict ∧
    ((sortSteps [stepA, stepB]).Pairwise stepLE ∧
     List.Perm (sortSteps [stepA, stepB]) [stepA, stepB]) := by
  refine ⟨?_, ?_, ?_⟩
  · exact execution_produces_sorted_results.1 runOk [fixturePipeline] 1 []
      fixturePipeline [⟨2, 1, true⟩, ⟨1, 2, true⟩] [] rfl rfl
  · exact execution_produces_sorted_results.2.1 runOk [dupPipeline] 2 []
      dupPipeline rfl rfl (by decide)
  · exact execution_produces_sorted_results.2.2 [stepA, stepB]

/-- C2: execution requires an active pipeline: a found pipeline whose
status is not active is rejected with `PipelineNotActive`, a missing
pipeline with `PipelineNotFound`, and the frontend offers the Execute
action exactly for pipelines whose status equals `active`. -/
theorem execution_requires_active_status :
    (∀ (run : Step → Payload → StepOutcome) (pipelines : List Pipeline)
        (pid : Nat) (input : Payload) (p : Pipeline),
      pipelines.find? (fun q => q.id == pid) = some p →
      p.status ≠ PipelineStatus.active →
      executePipeline run pipelines pid input =
        Except.error OrchError.PipelineNotActive)
  ∧ (∀ (run : Step → Payload → StepOutcome) (pipelines : List Pipeline)
        (pid : Nat) (input : Payload),
      pipelines.find? (fun q => q.id == pid) = none →
      executePipeline run pipelines pid input =
        Except.error OrchError.PipelineNotFound)
  ∧ (∀ status : String,
      executeButtonShown status = true ↔ status = "active") := by
  refine ⟨?_, ?_, ?_⟩
  · intro run pipelines pid input p hfind hstatus
    simp [executePipeline, hfind, hstatus]
  · intro run pipelines pid input hfind
    simp [executePipeline, hfind]
  · intro status
    simp [executeButtonShown]

/-- C2 witness: a paused fixture pipeline is rejected with
`PipelineNotActive`, an empty store yields `PipelineNotFound`, and the
Execute button logic accepts exactly the string `active`. -/
theorem execution_requires_active_status_witness :
    executePipeline runOk [⟨7, PipelineStatus.paused, []⟩] 7 [] =
      Except.error OrchError.PipelineNotActive ∧
    executePipeline runOk [] 7 [] =
      Except.error OrchError.PipelineNotFound ∧
    (executeButtonShown "active" = true ↔ ("active" : String) = "active") := by
  refine ⟨?_, ?_, ?_⟩
  · exact execution_requires_active_status.1 runOk
      [⟨7, PipelineStatus.paused, []⟩] 7 [] ⟨7, PipelineStatus.paused, []⟩
      rfl (by decide)
  · exact execution_requires_active_status.2.1 runOk [] 7 [] rfl
  · exact execution_requires_active_status.2.2 "active"

/-- C3: under the default fail-fast policy, an execution that reaches
a critical step which fails terminates with status `failed`, and no
step after the failed one is executed: the result list covers exactly
the steps before it plus the failed step itself. -/
theorem failfast_critical_step
    (run : Step → Payload → StepOutcome) (pipelines : List Pipeline)
    (pid : Nat) (input : Payload) (p : Pipeline)
    (pre : List Step) (s : Step) (post : List Step)
    (hfind : pipelines.find? (fun q => q.id == pid) = some p)
    (hactive : p.status = PipelineStatus.active)
    (hnodup : (p.steps.map Step.order).Nodup)
    (hsorted : sortSteps p.steps = pre ++ s :: post)
    (hcrit : s.critical = true)
    (hpre : ∀ t ∈ pre, ∀ pay, ∃ out, run t pay = StepOutcome.success out)
    (hfail : ∀ pay, ∃ err, run s pay = StepOutcome.failure err) :
    ∃ results fin,
      executePipeline run pipelines pid input =
        Except.ok (results, ExecStatus.failed, fin) ∧
      results.length = pre.length + 1 := by
  have hex := executePipeline_ok run pipelines pid input p hfind hactive hnodup
  rw [hsorted] at hex
  have hff := runSteps_failfast run s hcrit hfail pre post input hpre
  refine ⟨(runSteps run (pre ++ s :: post) input).1,
          (runSteps run (pre ++ s :: post) input).2.2, ?_, hff.2⟩
  have heta : runSteps run (pre ++ s :: post) input =
      ((runSteps run (pre ++ s :: post) input).1, ExecStatus.failed,
       (runSteps run (pre ++ s :: post) input).2.2) := by
    rw [← hff.1]
  rw [hex, ← heta]

/-- C3 witness: in the fixture pipeline whose first critical step
fails, execution ends `failed` with exactly one step result. -/
theorem failfast_critical_step_witness :
    ∃ results fin,
      executePipeline runFailFirst [failPipeline] 3 [] =
        Except.ok (results, ExecStatus.failed, fin) ∧
      results.length = List.length ([] : List Step) + 1 := by
  exact failfast_critical_step runFailFirst [failPipeline] 3 []
    failPipeline [] ⟨3, 10, 1, true, []⟩ [⟨4, 11, 2, true, []⟩]
    rfl rfl (by decide) (by decide) rfl
    (fun t ht => absurd ht (List.not_mem_nil t))
    (fun pay => ⟨"boom", rfl⟩)

/-- C6: step traversal is deterministic: two executions of the same
pipeline store, pipeline id, agent behaviour and input produce the
same step-id traversal sequence (and the same execution outcome
altogether). -/
theorem deterministic_step_traversal
    (run : Step → Payload → StepOutcome) (pipelines : List Pipeline)
    (pid : Nat) (input : Payload)
    (e1 e2 : List StepResult × ExecStatus × Payload)
    (h1 : executePipeline run pipelines pid input = Except.ok e1)
    (h2 : executePipeline run pipelines pid input = Except.ok e2) :
    e1.1.map StepResult.step_id = e2.1.map StepResult.step_id ∧ e1 = e2 := by
  rw [h1] at h2
  obtain rfl := Except.ok.inj h2
  exact ⟨rfl, rfl⟩

/-- C6 witness: two executions of the fixture pipeline against the
same input traverse step ids identically. -/
theorem deterministic_step_traversal_witness :
    (([⟨2, 1, true⟩, ⟨1, 2, true⟩] : List StepResult).map StepResult.step_id =
     ([⟨2, 1, true⟩, ⟨1, 2, true⟩] : List StepResult).map StepResult.step_id) ∧
    (([⟨2, 1, true⟩, ⟨1, 2, true⟩] : List StepResult), ExecStatus.succeeded,
      ([] : Payload)) =
    (([⟨2, 1, true⟩, ⟨1, 2, true⟩] : List StepResult), ExecStatus.succeeded,
      ([] : Payload)) := by
  exact deterministic_step_traversal runOk [fixturePipeline] 1 []
    ([⟨2, 1, true⟩, ⟨1, 2, true⟩], ExecStatus.succeeded, [])
    ([⟨2, 1, true⟩, ⟨1, 2, true⟩], ExecStatus.succeeded, [])
    rfl rfl

/-- C4: with a healthy dedup store, two deliveries of the same event
id invoke the handler exactly once; with the store unavailable, at
least once; an id already present in the store is dropped without
invoking the handler (state unchanged). -/
theorem dedup_handler_invocations :
    (∀ (st : BusState) (e : String),
      st.dedupHealthy = true → e ∉ st.dedupStore → e ∉ st.handled →
      (consume (consume st e) e).handled.count e = 1)
  ∧ (∀ (st : BusState) (e : String),
      st.dedupHealthy = false →
      1 ≤ (consume (consume st e) e).handled.count e)
  ∧ (∀ (st : BusState) (e : String),
      st.dedupHealthy = true → e ∈ st.dedupStore →
      consume st e = st) := by
  refine ⟨?_, ?_, ?_⟩
  · intro st e hh hn hnh
    simp [consume, hh, hn, List.count_cons_self, List.count_eq_zero.mpr hnh]
  · intro st e hh
    simp only [consume, hh, Bool.false_eq_true, if_false, ite_false]
    simp [List.count_cons_self]
  · intro st e hh hm
    simp [consume, hh, hm]

/-- C4 witness: a fresh id through a healthy bus twice is handled
exactly once; through a degraded bus it is handled at least once; an
id already recorded is dropped. -/
theorem dedup_handler_invocations_witness :
    (consume (consume ⟨[], true, []⟩ "evt-1") "evt-1").handled.count "evt-1"
      = 1 ∧
    1 ≤ (consume (consume ⟨[], false, []⟩ "evt-1") "evt-1").handled.count
      "evt-1" ∧
    consume ⟨["evt-1"], true, []⟩ "evt-1" = ⟨["evt-1"], true, []⟩ := by
  refine ⟨?_, ?_, ?_⟩
  · exact dedup_handler_invocations.1 ⟨[], true, []⟩ "evt-1" rfl
      (by simp) (by simp)
  · exact dedup_handler_invocations.2.1 ⟨[], false, []⟩ "evt-1" rfl
  · exact dedup_handler_invocations.2.2 ⟨["evt-1"], true, []⟩ "evt-1" rfl
      (by simp)

/-- C5: registering a type name already bound to a different
constructor fails with `DuplicateType`, and afterwards the original
binding is unchanged and still usable: `create_agent` on the same
registry still constructs an instance from the original constructor. -/
theorem duplicate_type_rejected
    (r : List (String × Nat)) (typeName : String) (c c' : Nat)
    (config : Payload)
    (hbound : r.lookup typeName = some c) (hne : c' ≠ c) :
    register r typeName c' = Except.error RegError.DuplicateType ∧
    create_agent r typeName config = Except.ok ⟨c, config⟩ := by
  constructor
  · simp [register, hbound, Ne.symm hne]
  · simp [create_agent, hbound]

/-- C5 witness: re-registering `validator` with a different
constructor fails and the original remains usable. -/
theorem duplicate_type_rejected_witness :
    register [("validator", 1)] "validator" 2 =
      Except.error RegError.DuplicateType ∧
    create_agent [("validator", 1)] "validator" [] =
      Except.ok ⟨1, []⟩ := by
  exact duplicate_type_rejected [("validator", 1)] "validator" 1 2 []
    rfl (by decide)

/-- C7 counterexample: the claim that after acceptance no externally
visible state - including the execute operation's response - reports
status `pending` is false: the documented response of
`POST /api/pipelines/{pipeline_id}/execute` reports exactly
`"status": "pending"`. -/
theorem execute_response_pending_counterexample :
    ¬ execNeverObservedPending := by
  intro h
  exact h rfl

/-- C7 (amended): after the Orchestrator accepts an execution request,
the response of the execute operation reports the execution in status
`pending` (not yet `running`); the transition to `running` is not
observable in that response. -/
theorem execute_response_documents_pending :
    documentedExecuteResponse.status = "pending" ∧
    documentedExecuteResponse.status ≠ "running" := by
  exact ⟨rfl, by decide⟩

/-- C8: an agent referenced by at least one step of some pipeline is
never deleted: the delete operation's referential check refuses the
deletion with `AgentReferenced`. -/
theorem referenced_agent_delete_refused
    (agents : List AgentDef) (pipelines : List Pipeline) (aid : Nat)
    (a : AgentDef) (p : Pipeline) (s : Step)
    (ha : a ∈ agents) (haid : a.id = aid)
    (hp : p ∈ pipelines) (hs : s ∈ p.steps) (hsa : s.agent_id = aid) :
    deleteAgent agents pipelines aid =
      Except.error DeleteError.AgentReferenced := by
  have h1 : agents.any (fun x => x.id == aid) = true :=
    List.any_eq_true.mpr ⟨a, ha, by simp [haid]⟩
  have h2 : isReferenced pipelines aid = true := by
    unfold isReferenced
    exact List.any_eq_true.mpr
      ⟨p, hp, List.any_eq_true.mpr ⟨s, hs, by simp [hsa]⟩⟩
  simp [deleteAgent, h1, h2]

/-- C8 witness: deleting the agent referenced by the fixture
pipeline's first step is refused. -/
theorem referenced_agent_delete_refused_witness :
    deleteAgent [⟨10, "validator", "active"⟩] [fixturePipeline] 10 =
      Except.error DeleteError.AgentReferenced := by
  exact referenced_agent_delete_refused
    [⟨10, "validator", "active"⟩] [fixturePipeline] 10
    ⟨10, "validator", "active"⟩ fixturePipeline stepA
    (by simp) rfl (by simp) (by simp [fixturePipeline]) rfl

/-- C9: on a 401 response with a stored refresh token the interceptor
performs exactly one refresh call; on refresh success it stores both
new tokens and retries the original request once with the new access
token; on refresh failure it removes both tokens and navigates to
`/login`; with no stored refresh token the 401 error is propagated
unchanged with no refresh call. -/
theorem token_refresh_on_401
    (st : TokenStorage) (refreshApi : String → RefreshResult)
    (e : HttpError) :
    (∀ rt newAccess newRefresh,
      e.status = some 401 → st.refresh_token = some rt →
      refreshApi rt = RefreshResult.ok newAccess newRefresh →
      responseErrorInterceptor st refreshApi e =
        ⟨InterceptorResult.retried
           ⟨e.config.url, some ("Bearer " ++ newAccess)⟩,
         ⟨some newAccess, some newRefresh⟩, NavTarget.stay, 1⟩)
  ∧ (∀ rt,
      e.status = some 401 → st.refresh_token = some rt →
      refreshApi rt = RefreshResult.failed →
      responseErrorInterceptor st refreshApi e =
        ⟨InterceptorResult.reject e, ⟨none, none⟩, NavTarget.login, 1⟩)
  ∧ (e.status = some 401 → st.refresh_token = none →
      responseErrorInterceptor st refreshApi e =
        ⟨InterceptorResult.reject e, st, NavTarget.stay, 0⟩) := by
  refine ⟨?_, ?_, ?_⟩
  · intro rt newAccess newRefresh h401 hrt hok
    simp [responseErrorInterceptor, h401, hrt, hok]
  · intro rt h401 hrt hfail
    simp [responseErrorInterceptor, h401, hrt, hfail]
  · intro h401 hnone
    simp [responseErrorInterceptor, h401, hnone]

/-- C9 witness: concrete 401 scenarios: successful refresh stores and
retries with the new token; failed refresh clears tokens and goes to
`/login`; no stored refresh token propagates the error. -/
theorem token_refresh_on_401_witness :
    responseErrorInterceptor ⟨some "oldA", some "oldR"⟩
        (fun _ => RefreshResult.ok "newA" "newR")
        ⟨some 401, ⟨"/api/agents/", some "Bearer oldA"⟩⟩ =
      ⟨InterceptorResult.retried ⟨"/api/agents/", some ("Bearer " ++ "newA")⟩,
       ⟨some "newA", some "newR"⟩, NavTarget.stay, 1⟩ ∧
    responseErrorInterceptor ⟨some "oldA", some "oldR"⟩
        (fun _ => RefreshResult.failed)
        ⟨some 401, ⟨"/api/agents/", some "Bearer oldA"⟩⟩ =
      ⟨InterceptorResult.reject ⟨some 401, ⟨"/api/agents/", some "Bearer oldA"⟩⟩,
       ⟨none, none⟩, NavTarget.login, 1⟩ ∧
    responseErrorInterceptor ⟨some "oldA", none⟩
        (fun _ => RefreshResult.failed)
        ⟨some 401, ⟨"/api/agents/", some "Bearer oldA"⟩⟩ =
      ⟨InterceptorResult.reject ⟨some 401, ⟨"/api/agents/", some "Bearer oldA"⟩⟩,
       ⟨some "oldA", none⟩, NavTarget.stay, 0⟩ := by
  refine ⟨?_, ?_, ?_⟩
  · exact (token_refresh_on_401 ⟨some "oldA", some "oldR"⟩
      (fun _ => RefreshResult.ok "newA" "newR")
      ⟨some 401, ⟨"/api/agents/", some "Bearer oldA"⟩⟩).1
      "oldR" "newA" "newR" rfl rfl rfl
  · exact (token_refresh_on_401 ⟨some "oldA", some "oldR"⟩
      (fun _ => RefreshResult.failed)
      ⟨some 401, ⟨"/api/agents/", some "Bearer oldA"⟩⟩).2.1
      "oldR" rfl rfl rfl
  · exact (token_refresh_on_401 ⟨some "oldA", none⟩
      (fun _ => RefreshResult.failed)
      ⟨some 401, ⟨"/api/agents/", some "Bearer oldA"⟩⟩).2.2
      rfl rfl

/-- C10: the Clear Filters action resets the filter state but the
reload it schedules closes over the pre-clear filters: whenever at
least one filter is non-empty, the request issued right after clearing
still carries the old filter parameters, not the empty set. -/
theorem clear_filters_uses_stale_filters (f : Filters)
    (h : f.action ≠ "" ∨ f.resource_type ≠ "" ∨ f.status ≠ "") :
    (handleClearFilters f).newFilters = emptyFilters ∧
    (handleClearFilters f).requestParams = buildParams f ∧
    (handleClearFilters f).requestParams ≠ buildParams emptyFilters := by
  refine ⟨rfl, rfl, ?_⟩
  show buildParams f ≠ buildParams emptyFilters
  have hempty : buildParams emptyFilters = [] := rfl
  rw [hempty]
  intro hnil
  unfold buildParams at hnil
  rcases List.append_eq_nil.mp hnil with ⟨h12, h3⟩
  rcases List.append_eq_nil.mp h12 with ⟨h1, h2⟩
  rcases h with ha | hr | hs
  · rw [if_pos ha] at h1
    exact List.cons_ne_nil _ _ h1
  · rw [if_pos hr] at h2
    exact List.cons_ne_nil _ _ h2
  · rw [if_pos hs] at h3
    exact List.cons_ne_nil _ _ h3

/-- C10 witness: clearing with an `action` filter set still issues the
request with the old `action` parameter. -/
theorem clear_filters_uses_stale_filters_witness :
    (handleClearFilters ⟨"agent_created", "", ""⟩).newFilters =
      emptyFilters ∧
    (handleClearFilters ⟨"agent_created", "", ""⟩).requestParams =
      buildParams ⟨"agent_created", "", ""⟩ ∧
    (handleClearFilters ⟨"agent_created", "", ""⟩).requestParams ≠
      buildParams emptyFilters := by
  exact clear_filters_uses_stale_filters ⟨"agent_created", "", ""⟩
    (Or.inl (by decide))

end InterfaceAgent
